import Mathlib

/-
Verification development for the ANUS_GEMIN model-routing layer.

The embedding mirrors the two source files:
  anus/models/gemini_model.py  — the Gemini provider adapter and chat wrapper;
  anus/models/model_router.py  — the ModelRouter with its registries,
                                 lazy default model and fallback logic.

Python dictionaries of type Dict[str, Any] are embedded as association
lists over an opaque value type `Val`; `Val.vstr` carries strings (the only
values the router ever inspects, via the `provider` key) and `Val.vnum`
carries numeric payload such as a temperature opaquely.  Python exceptions
are embedded as `Except String`; external SDK objects (the genai client,
chat sessions) are embedded as records of functions returning `Except`,
so that a remote failure is an `Except.error` value.
-/

namespace ModelRouting

/-- A configuration value.  The router only ever inspects string values
(the `provider` field); every other Python value (floats such as a
temperature, ints, nested data) is opaque payload carried by `vnum` or
`vstr`. -/
inductive Val where
  | vstr (s : String)
  | vnum (n : Int)
deriving DecidableEq

/-- A Python `Dict[str, Any]` configuration, as an association list.
Dictionaries built by the source have no duplicate keys, and lookup takes
the first match, so the embedding agrees with dict semantics. -/
abbrev Config := List (String × Val)

/-- Embeds `d.get(key)`: first value bound to `key`, if any. -/
def lookupAssoc {α : Type} : List (String × α) → String → Option α
  | [], _ => none
  | (k, v) :: rest, key => if k = key then some v else lookupAssoc rest key

/-- Embeds `d.copy(); d.pop(key, None)`: the dictionary without `key`. -/
def eraseKey {α : Type} (l : List (String × α)) (key : String) : List (String × α) :=
  l.filter (fun kv => kv.1 ≠ key)

/-- Embeds Python `str.lower()` (over the ASCII range the provider keys
use), written by structural recursion over the characters so that it
evaluates inside the kernel. -/
def str_lower (s : String) : String := ⟨s.data.map Char.toLower⟩

/-- Embeds `d[key] = v` on a Python dict: replace the first binding of
`key` in place, or append a fresh binding at the end. -/
def insertAssoc {α : Type} : List (String × α) → String → α → List (String × α)
  | [], key, v => [(key, v)]
  | (k, w) :: rest, key, v =>
    if k = key then (key, v) :: rest else (k, w) :: insertAssoc rest key v

/- ## Gemini adapter (anus/models/gemini_model.py) -/

/-- The text payload of a `GenerateContentResponse` (also used for one
streamed chunk): the source only ever reads `.text` from it. -/
structure GenResponse where
  text : String
deriving DecidableEq

/-- One content part of a chat message; the source reads `part.text`. -/
structure Part where
  text : String
deriving DecidableEq

/-- One message of a chat history: `message.role` and `message.parts`. -/
structure ChatMessage where
  role : String
  parts : List Part
deriving DecidableEq

/-- The external `genai.Client` capability used by `GeminiModel`:
single-shot generation and streaming generation, each taking the model
name, the temperature and the contents.  A raised exception is an
`Except.error`; a streamed response is the finite list of iteration
outcomes, where an `Except.error` element is an exception raised while
iterating (the chunks before it were already yielded). -/
structure GeminiClient (α ε : Type) where
  generate_content : String → Int → α → Except ε GenResponse
  generate_content_stream : String → Int → α → Except ε (List (Except ε GenResponse))

/-- The `GeminiModel` adapter state: fields set by `__init__`, with the
client built from the api key by the external SDK.  The Python float
temperature is opaque payload, carried as an `Int`. -/
structure GeminiModel (α ε : Type) where
  model_name : String
  api_key : String
  temperature : Int
  client : GeminiClient α ε

/-- Embeds `GeminiModel.generate_text`: call the client inside `try`,
return `response.text` on success and `""` on any exception. -/
def GeminiModel.generate_text {α ε : Type} (gm : GeminiModel α ε) (contents : α) : String :=
  match gm.client.generate_content gm.model_name gm.temperature contents with
  | .ok response => response.text
  | .error _ => ""

/-- Embeds the `for chunk in response: yield chunk.text` loop of
`generate_text_stream`: the texts yielded before the first exception;
the exception ends the generator (the `except` clause swallows it). -/
def stream_texts {ε : Type} : List (Except ε GenResponse) → List String
  | [] => []
  | .ok chunk :: rest => chunk.text :: stream_texts rest
  | .error _ :: _ => []

/-- Embeds `GeminiModel.generate_text_stream`: the finite sequence of
fragments the generator yields.  A failure of the initial call gives the
empty sequence; a failure while iterating ends the sequence after the
fragments already yielded; no failure ever escapes the generator. -/
def GeminiModel.generate_text_stream {α ε : Type} (gm : GeminiModel α ε) (contents : α) : List String :=
  match gm.client.generate_content_stream gm.model_name gm.temperature contents with
  | .ok chunks => stream_texts chunks
  | .error _ => []

/-- The external chat-session capability used by `GeminiChat`:
`send_message` returns the response (or raises), `get_history` returns
the structured messages of the session so far (or raises). -/
structure ChatSession (ε : Type) where
  send_message : String → Except ε GenResponse
  get_history : Except ε (List ChatMessage)

/-- Embeds the `GeminiChat` wrapper around a chat session. -/
structure GeminiChat (ε : Type) where
  chat_session : ChatSession ε

/-- Embeds `GeminiChat.send_message`: `response.text` on success, `""` on
any exception. -/
def GeminiChat.send_message {ε : Type} (c : GeminiChat ε) (message : String) : String :=
  match c.chat_session.send_message message with
  | .ok response => response.text
  | .error _ => ""

/-- One `{role, text}` entry of the normalized history. -/
structure HistoryEntry where
  role : String
  text : String
deriving DecidableEq

/-- Embeds the list comprehension
`[{"role": m.role, "text": m.parts[0].text} for m in history]`:
`none` models the `IndexError` raised by `m.parts[0]` on a message with
no parts, which aborts the whole comprehension. -/
def history_entries : List ChatMessage → Option (List HistoryEntry)
  | [] => some []
  | message :: rest =>
    match message.parts with
    | [] => none
    | part :: _ =>
      match history_entries rest with
      | some entries => some ({ role := message.role, text := part.text } :: entries)
      | none => none

/-- Embeds `GeminiChat.get_history`: the normalized history on success,
and the empty sequence when retrieval or the comprehension raises. -/
def GeminiChat.get_history {ε : Type} (c : GeminiChat ε) : List HistoryEntry :=
  match c.chat_session.get_history with
  | .ok messages =>
    match history_entries messages with
    | some entries => entries
    | none => []
  | .error _ => []

/-- The text of a message's first content part (used to state what
`get_history` extracts; total, with `""` for the impossible empty case). -/
def first_part_text (m : ChatMessage) : String :=
  match m.parts with
  | part :: _ => part.text
  | [] => ""

/- ## Model router (anus/models/model_router.py)

The router stores adapter constructors (`Type[BaseModel]` in the source)
abstractly as functions `Config → Except String μ` over an arbitrary
instance type `μ`: a raised constructor exception is an `Except.error`.
The module-level `OpenAIModel` class used both in the initial registry
and in the hard-coded fallback is a parameter `oa` of the same type. -/

/-- The `ModelRouter` state: the name→instance registry `models`, the
provider→constructor registry `model_classes`, the default configuration
and the lazily-created default model. -/
structure ModelRouter (μ : Type) where
  models : List (String × μ)
  model_classes : List (String × (Config → Except String μ))
  default_model_config : Config
  default_model : Option μ

/-- The hard-coded default configuration installed by `__init__` when no
(truthy) configuration is passed. -/
def default_config : Config :=
  [("provider", Val.vstr "openai"), ("model_name", Val.vstr "gpt-4"),
   ("temperature", Val.vnum 0)]

/-- Embeds `ModelRouter.__init__`: empty instance registry, the initial
provider registry binding `"openai"` and `"gemini"`, and
`default_model_config or {...}` — a `None` or empty (falsy) dictionary is
replaced by the hard-coded default. -/
def init_router {μ : Type} (oa gm : Config → Except String μ)
    (cfg : Option Config) : ModelRouter μ :=
  { models := [],
    model_classes := [("openai", oa), ("gemini", gm)],
    default_model_config :=
      match cfg with
      | some (kv :: rest) => kv :: rest
      | some [] => default_config
      | none => default_config,
    default_model := none }

/-- Embeds `register_model`: insert or overwrite in the name→instance
registry. -/
def register_model {μ : Type} (r : ModelRouter μ) (name : String) (model : μ) :
    ModelRouter μ :=
  { r with models := insertAssoc r.models name model }

/-- Embeds `register_model_class`: insert or overwrite in the
provider→constructor registry, storing the provider key verbatim. -/
def register_model_class {μ : Type} (r : ModelRouter μ) (provider : String)
    (model_class : Config → Except String μ) : ModelRouter μ :=
  { r with model_classes := insertAssoc r.model_classes provider model_class }

/-- Embeds `config.get("provider", "openai").lower()`.  A present string
value is lower-cased, an absent key defaults to `"openai"`; a present
non-string value makes `.lower()` raise an `AttributeError`, which
propagates (this line is outside the `try` block). -/
def provider_of (config : Config) : Except String String :=
  match lookupAssoc config "provider" with
  | none => .ok "openai"
  | some (Val.vstr s) => .ok (str_lower s)
  | some (Val.vnum _) => .error "AttributeError: lower"

/-- Embeds the resolution step of `_create_model_from_config` (lines
128-134): lower-case the provider and force it to `"openai"` when it is
not a key of the provider registry.  The subsequent missing-api-key check
for `"gemini"` only logs and is semantically a no-op. -/
def resolve_provider {μ : Type} (r : ModelRouter μ) (config : Config) :
    Except String String :=
  match provider_of config with
  | .ok p => .ok (if (lookupAssoc r.model_classes p).isSome then p else "openai")
  | .error e => .error e

/-- One constructor invocation performed by `_create_model_from_config`:
either the constructor found in the provider registry, or the module-level
`OpenAIModel` fallback. -/
inductive Attempt where
  | registry_ctor (provider : String) (kwargs : Config)
  | fallback_openai (kwargs : Config)
deriving DecidableEq

/-- The outcome of `_create_model_from_config`: the returned instance or
raised error, together with the trace of constructor invocations made. -/
structure CreateOut (μ : Type) where
  result : Except String μ
  attempts : List Attempt

/-- The hard-coded keyword arguments of the fallback construction
`OpenAIModel(model_name="gpt-4")`. -/
def fallback_config : Config := [("model_name", Val.vstr "gpt-4")]

/-- Embeds the `try`/`except` body of `_create_model_from_config` (lines
140-152) for an already-resolved provider: look the constructor up (a
missing key raises `KeyError` inside the `try`), invoke it on the kwargs,
and on any exception make the single fallback attempt
`OpenAIModel(model_name="gpt-4")`; if that also raises, raise
`ValueError("Failed to create model: ...")`. -/
def construct_with {μ : Type} (oa : Config → Except String μ) (r : ModelRouter μ)
    (provider : String) (kwargs : Config) : CreateOut μ :=
  match lookupAssoc r.model_classes provider with
  | some model_class =>
    match model_class kwargs with
    | .ok m => { result := .ok m, attempts := [.registry_ctor provider kwargs] }
    | .error e =>
      match oa fallback_config with
      | .ok m =>
        { result := .ok m,
          attempts := [.registry_ctor provider kwargs, .fallback_openai fallback_config] }
      | .error _ =>
        { result := .error ("Failed to create model: " ++ e),
          attempts := [.registry_ctor provider kwargs, .fallback_openai fallback_config] }
  | none =>
    match oa fallback_config with
    | .ok m => { result := .ok m, attempts := [.fallback_openai fallback_config] }
    | .error _ =>
      { result := .error ("Failed to create model: KeyError"),
        attempts := [.fallback_openai fallback_config] }

/-- Embeds `_create_model_from_config`: resolve the provider, strip the
`provider` key from a copy of the config, and construct. -/
def create_model_from_config {μ : Type} (oa : Config → Except String μ)
    (r : ModelRouter μ) (config : Config) : CreateOut μ :=
  match resolve_provider r config with
  | .ok provider => construct_with oa r provider (eraseKey config "provider")
  | .error e => { result := .error e, attempts := [] }

/-- Embeds `get_default_model`: return the memoized default instance, or
construct it from the default configuration and cache it; a construction
error propagates and leaves the cache unset. -/
def get_default_model {μ : Type} (oa : Config → Except String μ)
    (r : ModelRouter μ) : Except String (μ × ModelRouter μ) :=
  match r.default_model with
  | some m => .ok (m, r)
  | none =>
    match (create_model_from_config oa r r.default_model_config).result with
    | .ok m => .ok (m, { r with default_model := some m })
    | .error e => .error e

/-- The runtime type of the `name_or_config` argument of `get_model`:
a string, a configuration dictionary, or any other Python value. -/
inductive NameOrConfig where
  | by_name (s : String)
  | by_config (c : Config)
  | invalid

/-- Embeds `get_model`: a registered name returns its instance; an
unknown name falls back to the default model; a configuration constructs
a fresh instance; any other input falls back to the default model. -/
def get_model {μ : Type} (oa : Config → Except String μ) (r : ModelRouter μ) :
    NameOrConfig → Except String (μ × ModelRouter μ)
  | .by_name name =>
    match lookupAssoc r.models name with
    | some m => .ok (m, r)
    | none => get_default_model oa r
  | .by_config config =>
    match (create_model_from_config oa r config).result with
    | .ok m => .ok (m, r)
    | .error e => .error e
  | .invalid => get_default_model oa r

/-- Embeds `select_model_for_task`: `if requirements:` is Python
truthiness, so only a given, non-empty requirements dictionary triggers a
fresh construction; `None` and the empty dictionary return the default
model.  The `task` argument is unused. -/
def select_model_for_task {μ : Type} (oa : Config → Except String μ)
    (r : ModelRouter μ) (_task : String) (requirements : Option Config) :
    Except String (μ × ModelRouter μ) :=
  match requirements with
  | some (kv :: rest) =>
    match (create_model_from_config oa r (kv :: rest)).result with
    | .ok m => .ok (m, r)
    | .error e => .error e
  | some [] => get_default_model oa r
  | none => get_default_model oa r

/-- One call of the router's public mutating interface, for stating
invariants over arbitrary operation sequences. -/
inductive RouterOp (μ : Type) where
  | reg_model (name : String) (model : μ)
  | reg_model_class (provider : String) (model_class : Config → Except String μ)
  | get_model_op (x : NameOrConfig)
  | get_default_op
  | select_op (task : String) (requirements : Option Config)

/-- The router state after one operation; an operation that raises leaves
the state unchanged (the only mutation, caching the default model, happens
after a successful construction). -/
def applyOp {μ : Type} (oa : Config → Except String μ) (r : ModelRouter μ) :
    RouterOp μ → ModelRouter μ
  | .reg_model name m => register_model r name m
  | .reg_model_class provider mc => register_model_class r provider mc
  | .get_model_op x =>
    match get_model oa r x with
    | .ok (_, r2) => r2
    | .error _ => r
  | .get_default_op =>
    match get_default_model oa r with
    | .ok (_, r2) => r2
    | .error _ => r
  | .select_op task req =>
    match select_model_for_task oa r task req with
    | .ok (_, r2) => r2
    | .error _ => r

/-- The router state after a sequence of operations. -/
def run_ops {μ : Type} (oa : Config → Except String μ) (r : ModelRouter μ)
    (ops : List (RouterOp μ)) : ModelRouter μ :=
  ops.foldl (applyOp oa) r

/-- Decides whether every provider key of the provider registry is
lower-case. -/
def lower_provider_keys {μ : Type} (r : ModelRouter μ) : Bool :=
  r.model_classes.all (fun kv => str_lower kv.1 == kv.1)

/-- Decides whether an operation can only add lower-case provider keys:
every operation except a `register_model_class` with a non-lower-case
key. -/
def op_keeps_lower {μ : Type} : RouterOp μ → Bool
  | .reg_model_class provider _ => str_lower provider == provider
  | _ => true

/- ## Concrete adapter instances used by witnesses and counterexamples -/

/-- A concrete model-instance type: an instance remembers which
constructor made it and with which keyword arguments. -/
inductive Inst where
  | tag (label : String) (kwargs : Config)
deriving DecidableEq

/-- A constructor that always succeeds, labelling its instances
`"openai"`. -/
def oaOk : Config → Except String Inst := fun kwargs => .ok (.tag "openai" kwargs)

/-- A constructor that always succeeds, labelling its instances
`"gemini"`. -/
def gmOk : Config → Except String Inst := fun kwargs => .ok (.tag "gemini" kwargs)

/-- A constructor that always raises (a failing `OpenAIModel`). -/
def oaBoom : Config → Except String Inst := fun _ => .error "boom"

/-- A constructor that always raises (a failing `GeminiModel`). -/
def gmBoom : Config → Except String Inst := fun _ => .error "gemini down"

/-- A constructor for a provider registered under the mixed-case key
`"Foo"`. -/
def ctorFoo : Config → Except String Inst := fun kwargs => .ok (.tag "foo" kwargs)

/-- A constructor for a provider registered under the key `"mistral"`. -/
def ctorMistral : Config → Except String Inst := fun kwargs => .ok (.tag "mistral" kwargs)

/-- A fresh router whose two initial constructors succeed. -/
def r_ok : ModelRouter Inst := init_router oaOk gmOk none

/-- A fresh router whose two initial constructors raise. -/
def r_boom : ModelRouter Inst := init_router oaBoom gmBoom none

/-- The instance the default configuration produces under `oaOk`. -/
def default_inst : Inst :=
  .tag "openai" [("model_name", Val.vstr "gpt-4"), ("temperature", Val.vnum 0)]

/-- `r_ok` after its default model has been constructed and cached. -/
def r_ok_cached : ModelRouter Inst := { r_ok with default_model := some default_inst }

/-- A distinguished already-cached default instance. -/
def cached_inst : Inst := .tag "cached" []

/-- A router whose default model cache holds `cached_inst`. -/
def r_cached : ModelRouter Inst := { r_ok with default_model := some cached_inst }

/-- A config selecting the `"gemini"` provider. -/
def cfg_gemini : Config := [("provider", Val.vstr "gemini")]

/-- A config selecting the mixed-case provider key `"Foo"`. -/
def cfg_foo : Config := [("provider", Val.vstr "Foo")]

/-- A config selecting a provider absent from the registry. -/
def cfg_unknown : Config := [("provider", Val.vstr "anthropic")]

/-- A non-empty requirements config with no provider field. -/
def cfg_x : Config := [("model_name", Val.vstr "x")]

/-- A Gemini client whose every remote call raises. -/
def failing_client : GeminiClient String String :=
  { generate_content := fun _ _ _ => .error "network unreachable",
    generate_content_stream := fun _ _ _ => .error "network unreachable" }

/-- A `GeminiModel` bound to the failing client. -/
def gm_fail : GeminiModel String String :=
  { model_name := "gemini-2.0-flash", api_key := "", temperature := 0,
    client := failing_client }

/-- A Gemini client whose stream yields two chunks and then raises, with
one more chunk never reached. -/
def midfail_client : GeminiClient String String :=
  { generate_content := fun _ _ _ => .ok { text := "unused" },
    generate_content_stream := fun _ _ _ =>
      .ok [.ok { text := "Hel" }, .ok { text := "lo" },
           .error "connection reset", .ok { text := "!" }] }

/-- A `GeminiModel` bound to the mid-stream-failing client. -/
def gm_midfail : GeminiModel String String :=
  { model_name := "gemini-2.0-flash", api_key := "", temperature := 0,
    client := midfail_client }

/-- A chat session whose every remote call raises. -/
def failing_session : ChatSession String :=
  { send_message := fun _ => .error "network unreachable",
    get_history := .error "network unreachable" }

/-- A `GeminiChat` bound to the failing session. -/
def chat_fail : GeminiChat String := { chat_session := failing_session }

/-- A two-message chat history whose second message has two parts. -/
def hist_msgs : List ChatMessage :=
  [{ role := "user", parts := [{ text := "hi" }] },
   { role := "model", parts := [{ text := "hello" }, { text := "extra" }] }]

/-- A chat session that returns `hist_msgs` as its history. -/
def hist_session : ChatSession String :=
  { send_message := fun _ => .ok { text := "" }, get_history := .ok hist_msgs }

/-- A `GeminiChat` bound to `hist_session`. -/
def chat_hist : GeminiChat String := { chat_session := hist_session }

/- ## Helper lemmas -/

/-- Looking up the key just inserted finds the inserted value. -/
theorem lookupAssoc_insertAssoc_self {α : Type} (l : List (String × α))
    (key : String) (v : α) : lookupAssoc (insertAssoc l key v) key = some v := by
  induction l with
  | nil => simp [insertAssoc, lookupAssoc]
  | cons kv rest ih =>
    by_cases h : kv.1 = key
    · simp [insertAssoc, h, lookupAssoc]
    · simpa [insertAssoc, h, lookupAssoc] using ih

/-- Streaming a block of successful chunks yields their texts before
whatever the rest of the iteration produces. -/
theorem stream_texts_map_ok_append {ε : Type} (ts : List String)
    (rest : List (Except ε GenResponse)) :
    stream_texts ((ts.map fun t => Except.ok (GenResponse.mk t)) ++ rest)
      = ts ++ stream_texts rest := by
  induction ts with
  | nil => simp
  | cons t ts ih => simpa [stream_texts] using ih

/-- The history comprehension succeeds on messages that all have a first
part, producing one role/text entry per message. -/
theorem history_entries_all_nonempty (msgs : List ChatMessage)
    (h : ∀ m ∈ msgs, m.parts ≠ []) :
    history_entries msgs
      = some (msgs.map fun m => { role := m.role, text := first_part_text m }) := by
  induction msgs with
  | nil => simp [history_entries]
  | cons m rest ih =>
    have hm : m.parts ≠ [] := h m (by simp)
    have hrest : ∀ m2 ∈ rest, m2.parts ≠ [] := fun m2 hm2 => h m2 (by simp [hm2])
    cases hp : m.parts with
    | nil => exact absurd hp hm
    | cons p ps =>
      simp [history_entries, hp, ih hrest, first_part_text]

/-- The history comprehension aborts (raises `IndexError`) as soon as any
message has no parts. -/
theorem history_entries_empty_member (msgs : List ChatMessage) (m : ChatMessage)
    (hmem : m ∈ msgs) (hm : m.parts = []) : history_entries msgs = none := by
  induction msgs with
  | nil => cases hmem
  | cons m2 rest ih =>
    rcases List.mem_cons.mp hmem with heq | hmem2
    · subst heq
      simp [history_entries, hm]
    · cases hp : m2.parts with
      | nil => simp [history_entries, hp]
      | cons p ps => simp [history_entries, hp, ih hmem2]

/-- The constructor step raises only when the hard-coded fallback
construction itself raised. -/
theorem construct_with_error_fallback {μ : Type} (oa : Config → Except String μ)
    (r : ModelRouter μ) (provider : String) (kwargs : Config) (msg : String)
    (h : (construct_with oa r provider kwargs).result = .error msg) :
    ∃ e, oa fallback_config = .error e := by
  unfold construct_with at h
  cases hl : lookupAssoc r.model_classes provider with
  | some model_class =>
    cases hc : model_class kwargs with
    | ok m => simp [hl, hc] at h
    | error e =>
      cases hf : oa fallback_config with
      | ok m => simp [hl, hc, hf] at h
      | error e2 => exact ⟨e2, rfl⟩
  | none =>
    cases hf : oa fallback_config with
    | ok m => simp [hl, hf] at h
    | error e2 => exact ⟨e2, rfl⟩

/-- `_create_model_from_config` on a config whose provider field is a
string (or absent) raises only when the fallback construction raised. -/
theorem create_error_fallback {μ : Type} (oa : Config → Except String μ)
    (r : ModelRouter μ) (config : Config) (p msg : String)
    (hp : provider_of config = .ok p)
    (h : (create_model_from_config oa r config).result = .error msg) :
    ∃ e, oa fallback_config = .error e := by
  unfold create_model_from_config resolve_provider at h
  rw [hp] at h
  exact construct_with_error_fallback oa r _ _ msg h

/-- `get_default_model` raises only when constructing from the default
configuration raised. -/
theorem get_default_model_error {μ : Type} (oa : Config → Except String μ)
    (r : ModelRouter μ) (msg : String)
    (h : get_default_model oa r = .error msg) :
    (create_model_from_config oa r r.default_model_config).result = .error msg := by
  unfold get_default_model at h
  cases hd : r.default_model with
  | some m => simp [hd] at h
  | none =>
    rw [hd] at h
    cases hc : (create_model_from_config oa r r.default_model_config).result with
    | ok m => simp [hc] at h
    | error e =>
      rw [hc] at h
      simp at h
      rw [h]

/-- A successful `get_default_model` changes at most the memoized default:
both registries are untouched. -/
theorem get_default_model_registries {μ : Type} (oa : Config → Except String μ)
    (r r2 : ModelRouter μ) (m : μ)
    (h : get_default_model oa r = .ok (m, r2)) :
    r2.model_classes = r.model_classes ∧ r2.models = r.models := by
  unfold get_default_model at h
  cases hd : r.default_model with
  | some m0 =>
    rw [hd] at h
    cases h
    exact ⟨rfl, rfl⟩
  | none =>
    rw [hd] at h
    cases hc : (create_model_from_config oa r r.default_model_config).result with
    | ok m0 =>
      rw [hc] at h
      cases h
      exact ⟨rfl, rfl⟩
    | error e => rw [hc] at h; cases h

/-- A successful `get_model` leaves both registries untouched. -/
theorem get_model_registries {μ : Type} (oa : Config → Except String μ)
    (r r2 : ModelRouter μ) (x : NameOrConfig) (m : μ)
    (h : get_model oa r x = .ok (m, r2)) :
    r2.model_classes = r.model_classes ∧ r2.models = r.models := by
  cases x with
  | by_name name =>
    simp only [get_model] at h
    cases hl : lookupAssoc r.models name with
    | some m0 =>
      rw [hl] at h
      cases h
      exact ⟨rfl, rfl⟩
    | none =>
      rw [hl] at h
      exact get_default_model_registries oa r r2 m h
  | by_config config =>
    simp only [get_model] at h
    cases hc : (create_model_from_config oa r config).result with
    | ok m0 =>
      rw [hc] at h
      cases h
      exact ⟨rfl, rfl⟩
    | error e => rw [hc] at h; cases h
  | invalid => exact get_default_model_registries oa r r2 m h

/-- A successful `select_model_for_task` leaves both registries
untouched. -/
theorem select_model_registries {μ : Type} (oa : Config → Except String μ)
    (r r2 : ModelRouter μ) (task : String) (req : Option Config) (m : μ)
    (h : select_model_for_task oa r task req = .ok (m, r2)) :
    r2.model_classes = r.model_classes ∧ r2.models = r.models := by
  cases req with
  | none => exact get_default_model_registries oa r r2 m h
  | some c =>
    cases c with
    | nil => exact get_default_model_registries oa r r2 m h
    | cons kv rest =>
      simp only [select_model_for_task] at h
      cases hc : (create_model_from_config oa r (kv :: rest)).result with
      | ok m0 =>
        rw [hc] at h
        cases h
        exact ⟨rfl, rfl⟩
      | error e => rw [hc] at h; cases h

/-- Inserting a lower-case key preserves lower-caseness of all keys. -/
theorem insertAssoc_lower {α : Type} (l : List (String × α)) (key : String)
    (v : α) (hk : str_lower key == key)
    (hl : l.all (fun kv => str_lower kv.1 == kv.1) = true) :
    (insertAssoc l key v).all (fun kv => str_lower kv.1 == kv.1) = true := by
  induction l with
  | nil => simp [insertAssoc, hk]
  | cons kv rest ih =>
    simp only [List.all_cons, Bool.and_eq_true] at hl
    by_cases h : kv.1 = key
    · simp [insertAssoc, h, hk, hl.2]
    · simp [insertAssoc, h, hl.1, ih hl.2]

/-- One router operation that only adds lower-case provider keys
preserves the lower-case-keys invariant. -/
theorem applyOp_lower {μ : Type} (oa : Config → Except String μ)
    (r : ModelRouter μ) (op : RouterOp μ) (hop : op_keeps_lower op = true)
    (h : lower_provider_keys r = true) :
    lower_provider_keys (applyOp oa r op) = true := by
  cases op with
  | reg_model name m => exact h
  | reg_model_class provider mc =>
    exact insertAssoc_lower r.model_classes provider mc hop h
  | get_model_op x =>
    simp only [applyOp]
    cases hg : get_model oa r x with
    | ok pr =>
      obtain ⟨m, r2⟩ := pr
      have hcl := (get_model_registries oa r r2 x m hg).1
      simpa [lower_provider_keys, hcl] using h
    | error e => simpa using h
  | get_default_op =>
    simp only [applyOp]
    cases hg : get_default_model oa r with
    | ok pr =>
      obtain ⟨m, r2⟩ := pr
      have hcl := (get_default_model_registries oa r r2 m hg).1
      simpa [lower_provider_keys, hcl] using h
    | error e => simpa using h
  | select_op task req =>
    simp only [applyOp]
    cases hg : select_model_for_task oa r task req with
    | ok pr =>
      obtain ⟨m, r2⟩ := pr
      have hcl := (select_model_registries oa r r2 task req m hg).1
      simpa [lower_provider_keys, hcl] using h
    | error e => simpa using h

/-- A sequence of operations that only add lower-case provider keys
preserves the lower-case-keys invariant. -/
theorem run_ops_lower {μ : Type} (oa : Config → Except String μ)
    (r : ModelRouter μ) (ops : List (RouterOp μ))
    (hops : ops.all op_keeps_lower = true)
    (h : lower_provider_keys r = true) :
    lower_provider_keys (run_ops oa r ops) = true := by
  induction ops generalizing r with
  | nil => exact h
  | cons op rest ih =>
    simp only [List.all_cons, Bool.and_eq_true] at hops
    exact ih (applyOp oa r op) hops.2 (applyOp_lower oa r op hops.1 h)

/-- Streaming a list of only-successful chunks yields all their texts. -/
theorem stream_texts_map_ok {ε : Type} (ts : List String) :
    stream_texts ((ts.map fun t => Except.ok (GenResponse.mk t)) : List (Except ε GenResponse))
      = ts := by
  induction ts with
  | nil => rfl
  | cons t ts ih => simpa [stream_texts] using ih

/- ## Claim theorems -/

/-- Claim C6: for every input on which the underlying remote call fails,
the adapter's `generate_text` returns the empty string, and a
`ChatSession`'s `send_message` likewise returns the empty string; in
neither operation does a generation-time failure propagate an exception
to the caller (both functions are total with return type `String`, so no
exception can escape). -/
theorem generate_text_and_send_message_degrade_to_empty {α ε : Type} :
    (∀ (gm : GeminiModel α ε) (contents : α) (e : ε),
      gm.client.generate_content gm.model_name gm.temperature contents = .error e →
      gm.generate_text contents = "")
    ∧ (∀ (c : GeminiChat ε) (message : String) (e : ε),
      c.chat_session.send_message message = .error e →
      c.send_message message = "") := by
  constructor
  · intro gm contents e h
    simp [GeminiModel.generate_text, h]
  · intro c message e h
    simp [GeminiChat.send_message, h]

/-- Witness for C6 at a concrete always-failing client and session. -/
theorem generate_text_and_send_message_degrade_to_empty_witness :
    gm_fail.generate_text "hello" = "" ∧ chat_fail.send_message "hello" = "" :=
  ⟨(@generate_text_and_send_message_degrade_to_empty String String).1
      gm_fail "hello" "network unreachable" rfl,
   (@generate_text_and_send_message_degrade_to_empty String String).2
      chat_fail "hello" "network unreachable" rfl⟩

/-- Claim C7: the sequence produced by `generate_text_stream` is finite
(it is a `List`), and when the underlying stream fails mid-stream it
consists exactly of the fragments emitted before the failure, when the
call fails at the start it is empty, and when no failure occurs it holds
every fragment; the failure is never propagated to the consumer (the
function is total with return type `List String`). -/
theorem generate_text_stream_prefix_on_failure {α ε : Type} :
    (∀ (gm : GeminiModel α ε) (contents : α) (ts : List String) (e : ε)
        (rest : List (Except ε GenResponse)),
      gm.client.generate_content_stream gm.model_name gm.temperature contents
        = .ok ((ts.map fun t => Except.ok (GenResponse.mk t)) ++ Except.error e :: rest) →
      gm.generate_text_stream contents = ts)
    ∧ (∀ (gm : GeminiModel α ε) (contents : α) (e : ε),
      gm.client.generate_content_stream gm.model_name gm.temperature contents = .error e →
      gm.generate_text_stream contents = [])
    ∧ (∀ (gm : GeminiModel α ε) (contents : α) (ts : List String),
      gm.client.generate_content_stream gm.model_name gm.temperature contents
        = .ok (ts.map fun t => Except.ok (GenResponse.mk t)) →
      gm.generate_text_stream contents = ts) := by
  refine ⟨?_, ?_, ?_⟩
  · intro gm contents ts e rest h
    simp [GeminiModel.generate_text_stream, h, stream_texts_map_ok_append, stream_texts]
  · intro gm contents e h
    simp [GeminiModel.generate_text_stream, h]
  · intro gm contents ts h
    simp [GeminiModel.generate_text_stream, h, stream_texts_map_ok]

/-- Witness for C7 at a concrete stream that fails after two chunks. -/
theorem generate_text_stream_prefix_on_failure_witness :
    gm_midfail.generate_text_stream "tell me" = ["Hel", "lo"] :=
  (@generate_text_stream_prefix_on_failure String String).1
    gm_midfail "tell me" ["Hel", "lo"] "connection reset" [.ok { text := "!" }] rfl

/-- Claim C10: when the underlying history retrieval succeeds and every
message has at least one content part, `GeminiChat.get_history` returns
one role/text pair per message in order, the text being that of the first
part only; when any message has no parts the whole call returns the empty
sequence; when retrieval fails it also returns the empty sequence. -/
theorem get_history_first_part_or_empty {ε : Type} :
    (∀ (c : GeminiChat ε) (msgs : List ChatMessage),
      c.chat_session.get_history = .ok msgs →
      (∀ m ∈ msgs, m.parts ≠ []) →
      c.get_history = msgs.map fun m => { role := m.role, text := first_part_text m })
    ∧ (∀ (c : GeminiChat ε) (msgs : List ChatMessage) (m : ChatMessage),
      c.chat_session.get_history = .ok msgs → m ∈ msgs → m.parts = [] →
      c.get_history = [])
    ∧ (∀ (c : GeminiChat ε) (e : ε),
      c.chat_session.get_history = .error e → c.get_history = []) := by
  refine ⟨?_, ?_, ?_⟩
  · intro c msgs h hne
    simp [GeminiChat.get_history, h, history_entries_all_nonempty msgs hne]
  · intro c msgs m h hmem hm
    simp [GeminiChat.get_history, h, history_entries_empty_member msgs m hmem hm]
  · intro c e h
    simp [GeminiChat.get_history, h]

/-- Witness for C10 at a concrete two-message history whose second
message has a second part that is dropped. -/
theorem get_history_first_part_or_empty_witness :
    chat_hist.get_history = [{ role := "user", text := "hi" },
                             { role := "model", text := "hello" }] :=
  ((@get_history_first_part_or_empty String).1 chat_hist hist_msgs rfl
    (by decide)).trans rfl

/-- Claim C2: when the resolved provider's constructor raises inside
`_create_model_from_config`, the router makes exactly one fallback
attempt, constructing the baseline `OpenAIModel` with the hard-coded
`model_name="gpt-4"` (the attempts trace records precisely the failed
registry construction followed by that single fallback construction); the
call raises to the caller if and only if the fallback construction also
fails; and across all of the router's resolution operations
(`_create_model_from_config`, `get_model`, `get_default_model`,
`select_model_for_task`, on configs whose provider field is a string or
absent, per the ModelConfig data model) a raised error implies the
fallback construction failed — no other failure path propagates. -/
theorem create_model_single_fallback_and_sole_failure_path {μ : Type}
    (oa : Config → Except String μ) (r : ModelRouter μ) (config : Config)
    (p e : String) (ctor : Config → Except String μ)
    (hp : provider_of config = .ok p)
    (hreg : lookupAssoc r.model_classes p = some ctor)
    (hfail : ctor (eraseKey config "provider") = .error e) :
    (create_model_from_config oa r config).attempts
      = [Attempt.registry_ctor p (eraseKey config "provider"),
         Attempt.fallback_openai fallback_config]
    ∧ (∀ m, oa fallback_config = .ok m →
        (create_model_from_config oa r config).result = .ok m)
    ∧ ((∃ msg, (create_model_from_config oa r config).result = .error msg)
        ↔ (∃ e2, oa fallback_config = .error e2))
    ∧ (∀ (c2 : Config) (p2 msg : String), provider_of c2 = .ok p2 →
        (create_model_from_config oa r c2).result = .error msg →
        ∃ e2, oa fallback_config = .error e2)
    ∧ (∀ (x : NameOrConfig) (msg : String),
        (∀ c2, x = NameOrConfig.by_config c2 → ∃ p2, provider_of c2 = .ok p2) →
        (∃ pd, provider_of r.default_model_config = .ok pd) →
        get_model oa r x = .error msg →
        ∃ e2, oa fallback_config = .error e2)
    ∧ (∀ msg : String, (∃ pd, provider_of r.default_model_config = .ok pd) →
        get_default_model oa r = .error msg →
        ∃ e2, oa fallback_config = .error e2)
    ∧ (∀ (task : String) (req : Option Config) (msg : String),
        (∀ c2, req = some c2 → c2 ≠ [] → ∃ p2, provider_of c2 = .ok p2) →
        (∃ pd, provider_of r.default_model_config = .ok pd) →
        select_model_for_task oa r task req = .error msg →
        ∃ e2, oa fallback_config = .error e2) := by
  have hkey : create_model_from_config oa r config
      = construct_with oa r p (eraseKey config "provider") := by
    simp [create_model_from_config, resolve_provider, hp, hreg]
  refine ⟨?_, ?_, ?_, ?_, ?_, ?_, ?_⟩
  · rw [hkey]
    cases hf : oa fallback_config with
    | ok m => simp [construct_with, hreg, hfail, hf]
    | error e2 => simp [construct_with, hreg, hfail, hf]
  · intro m hm
    rw [hkey]
    simp [construct_with, hreg, hfail, hm]
  · rw [hkey]
    cases hf : oa fallback_config with
    | ok m => simp [construct_with, hreg, hfail, hf]
    | error e2 => simp [construct_with, hreg, hfail, hf]
  · intro c2 p2 msg hp2 herr
    exact create_error_fallback oa r c2 p2 msg hp2 herr
  · intro x msg hx hd herr
    cases x with
    | by_name name =>
      simp only [get_model] at herr
      cases hl : lookupAssoc r.models name with
      | some m0 =>
        rw [hl] at herr
        cases herr
      | none =>
        rw [hl] at herr
        obtain ⟨pd, hpd⟩ := hd
        exact create_error_fallback oa r _ pd msg hpd
          (get_default_model_error oa r msg herr)
    | by_config c2 =>
      simp only [get_model] at herr
      obtain ⟨p2, hp2⟩ := hx c2 rfl
      cases hc : (create_model_from_config oa r c2).result with
      | ok m0 =>
        rw [hc] at herr
        cases herr
      | error e2 =>
        rw [hc] at herr
        simp at herr
        exact create_error_fallback oa r c2 p2 msg hp2 (by rw [hc, herr])
    | invalid =>
      simp only [get_model] at herr
      obtain ⟨pd, hpd⟩ := hd
      exact create_error_fallback oa r _ pd msg hpd
        (get_default_model_error oa r msg herr)
  · intro msg hd herr
    obtain ⟨pd, hpd⟩ := hd
    exact create_error_fallback oa r _ pd msg hpd
      (get_default_model_error oa r msg herr)
  · intro task req msg hreq hd herr
    cases req with
    | none =>
      simp only [select_model_for_task] at herr
      obtain ⟨pd, hpd⟩ := hd
      exact create_error_fallback oa r _ pd msg hpd
        (get_default_model_error oa r msg herr)
    | some c2 =>
      cases c2 with
      | nil =>
        simp only [select_model_for_task] at herr
        obtain ⟨pd, hpd⟩ := hd
        exact create_error_fallback oa r _ pd msg hpd
          (get_default_model_error oa r msg herr)
      | cons kv rest =>
        obtain ⟨p2, hp2⟩ := hreq (kv :: rest) rfl (by simp)
        simp only [select_model_for_task] at herr
        cases hc : (create_model_from_config oa r (kv :: rest)).result with
        | ok m0 =>
          rw [hc] at herr
          cases herr
        | error e2 =>
          rw [hc] at herr
          simp at herr
          exact create_error_fallback oa r _ p2 msg hp2 (by rw [hc, herr])

/-- Witness for C2: on a router whose `"gemini"` constructor raises, a
gemini config triggers exactly the failed registry construction followed
by the single hard-coded fallback attempt. -/
theorem create_model_single_fallback_and_sole_failure_path_witness :
    (create_model_from_config oaBoom r_boom cfg_gemini).attempts
      = [Attempt.registry_ctor "gemini" (eraseKey cfg_gemini "provider"),
         Attempt.fallback_openai fallback_config] :=
  (create_model_single_fallback_and_sole_failure_path oaBoom r_boom cfg_gemini
    "gemini" "gemini down" gmBoom rfl rfl rfl).1

/-- Counterexample to C1 as stated: the provider key `"Foo"` is present
in the registry (added via `register_model_class`, which stores keys
verbatim), the config selects `provider = "Foo"`, and its constructor
would succeed, yet `_create_model_from_config` lower-cases the config's
provider, misses `"Foo"`, and silently builds the `"openai"` adapter
instead of the one registered for `"Foo"`. -/
theorem register_model_class_case_counterexample :
    lookupAssoc (register_model_class r_ok "Foo" ctorFoo).model_classes "Foo"
      = some ctorFoo
    ∧ ctorFoo (eraseKey cfg_foo "provider") = .ok (.tag "foo" [])
    ∧ (create_model_from_config oaOk (register_model_class r_ok "Foo" ctorFoo)
        cfg_foo).result = .ok (.tag "openai" [])
    ∧ Inst.tag "openai" [] ≠ Inst.tag "foo" [] :=
  ⟨rfl, rfl, rfl, by decide⟩

/-- Claim C1, amended: for every provider key P that is lower-case (so
that the lower-casing performed on the config's provider field can reach
it), a config with `provider = P` resolves to the constructor registered
for P — both when P was already in the registry and, round-trip, right
after `register_model_class P ctor` — and a successful construction
returns exactly that constructor's instance. -/
theorem create_model_uses_registered_lowercase_ctor {μ : Type}
    (oa : Config → Except String μ) (r : ModelRouter μ) (config : Config)
    (P : String) (hlow : str_lower P = P)
    (hfield : lookupAssoc config "provider" = some (Val.vstr P)) :
    (∀ (ctor : Config → Except String μ) (m : μ),
      lookupAssoc r.model_classes P = some ctor →
      ctor (eraseKey config "provider") = .ok m →
      (create_model_from_config oa r config).result = .ok m)
    ∧ (∀ (ctor : Config → Except String μ) (m : μ),
      ctor (eraseKey config "provider") = .ok m →
      (create_model_from_config oa (register_model_class r P ctor) config).result
        = .ok m) := by
  have hp : provider_of config = .ok P := by simp [provider_of, hfield, hlow]
  constructor
  · intro ctor m hreg hok
    simp [create_model_from_config, resolve_provider, hp, hreg, construct_with, hok]
  · intro ctor m hok
    have hreg2 : lookupAssoc (register_model_class r P ctor).model_classes P
        = some ctor := lookupAssoc_insertAssoc_self r.model_classes P ctor
    simp [create_model_from_config, resolve_provider, hp, hreg2, construct_with, hok]

/-- Witness for the amended C1: registering `"mistral"` and resolving a
config with `provider = "mistral"` constructs via the new constructor. -/
theorem create_model_uses_registered_lowercase_ctor_witness :
    (create_model_from_config oaOk (register_model_class r_ok "mistral" ctorMistral)
      [("provider", Val.vstr "mistral")]).result = .ok (.tag "mistral" []) :=
  (create_model_uses_registered_lowercase_ctor oaOk r_ok
      [("provider", Val.vstr "mistral")] "mistral" rfl rfl).2
    ctorMistral (.tag "mistral" []) rfl

/-- Claim C3: a config whose (string) provider field is not a key of the
provider registry has `"openai"` silently substituted by the resolution
step, which itself never raises: resolution returns `ok "openai"` and
`_create_model_from_config` proceeds into the construction step with the
substituted provider. -/
theorem unknown_provider_substitutes_openai {μ : Type}
    (oa : Config → Except String μ) (r : ModelRouter μ) (config : Config)
    (s : String)
    (hfield : lookupAssoc config "provider" = some (Val.vstr s))
    (hunk : lookupAssoc r.model_classes (str_lower s) = none) :
    resolve_provider r config = .ok "openai"
    ∧ create_model_from_config oa r config
        = construct_with oa r "openai" (eraseKey config "provider") := by
  have hp : provider_of config = .ok (str_lower s) := by simp [provider_of, hfield]
  constructor
  · simp [resolve_provider, hp, hunk]
  · simp [create_model_from_config, resolve_provider, hp, hunk]

/-- Witness for C3 at the unknown provider `"anthropic"` on a fresh
router. -/
theorem unknown_provider_substitutes_openai_witness :
    resolve_provider r_ok cfg_unknown = .ok "openai"
    ∧ create_model_from_config oaOk r_ok cfg_unknown
        = construct_with oaOk r_ok "openai" (eraseKey cfg_unknown "provider") :=
  unknown_provider_substitutes_openai oaOk r_ok cfg_unknown "anthropic" rfl rfl

/-- Claim C4: `get_default_model` memoizes.  A successful call caches the
returned instance; a second call on the resulting router returns the
identical instance and state, and does so for an arbitrary constructor
environment — so no construction happens on the second call.  On a cold
cache the instance comes from constructing the default configuration; on
a warm cache it is the cached one unchanged. -/
theorem get_default_model_memoizes {μ : Type} (oa : Config → Except String μ)
    (r r2 : ModelRouter μ) (m : μ)
    (h : get_default_model oa r = .ok (m, r2)) :
    r2.default_model = some m
    ∧ get_default_model oa r2 = .ok (m, r2)
    ∧ (∀ oa2 : Config → Except String μ, get_default_model oa2 r2 = .ok (m, r2))
    ∧ (r.default_model = none →
        (create_model_from_config oa r r.default_model_config).result = .ok m
        ∧ r2 = { r with default_model := some m })
    ∧ (∀ m0, r.default_model = some m0 → m = m0 ∧ r2 = r) := by
  unfold get_default_model at h
  cases hd : r.default_model with
  | some m0 =>
    rw [hd] at h
    cases h
    refine ⟨hd, ?_, ?_, ?_, ?_⟩
    · simp [get_default_model, hd]
    · intro oa2
      simp [get_default_model, hd]
    · intro hnone
      exact Option.noConfusion hnone
    · intro m1 hm1
      cases hm1
      exact ⟨rfl, rfl⟩
  | none =>
    rw [hd] at h
    cases hc : (create_model_from_config oa r r.default_model_config).result with
    | ok m1 =>
      rw [hc] at h
      cases h
      refine ⟨rfl, ?_, ?_, ?_, ?_⟩
      · simp [get_default_model]
      · intro oa2
        simp [get_default_model]
      · intro _
        exact ⟨rfl, rfl⟩
      · intro m2 hm2
        exact Option.noConfusion hm2
    | error e =>
      rw [hc] at h
      cases h

/-- Witness for C4: on a fresh router a first call constructs and caches
the default instance, and the second call returns the identical cached
pair. -/
theorem get_default_model_memoizes_witness :
    get_default_model oaOk r_ok_cached = .ok (default_inst, r_ok_cached) :=
  (get_default_model_memoizes oaOk r_ok r_ok_cached default_inst rfl).2.1

/-- Counterexample to C5 as stated: the name `"ghost"` was never
registered, yet `get_model` raises — when the default model's
construction and the hard-coded fallback both fail, the `ValueError`
propagates to the caller of `get_model`. -/
theorem get_model_unknown_name_raises_counterexample :
    lookupAssoc r_boom.models "ghost" = none
    ∧ get_model oaBoom r_boom (.by_name "ghost")
        = .error "Failed to create model: boom" :=
  ⟨rfl, rfl⟩

/-- Claim C5, amended: for every name never registered, `get_model`
returns exactly the result of `get_default_model` — the unknown-name
lookup itself never raises, but a failure of the default model's
construction (and of its fallback) propagates through both calls
alike. -/
theorem get_model_unknown_name_eq_default {μ : Type}
    (oa : Config → Except String μ) (r : ModelRouter μ) (name : String)
    (h : lookupAssoc r.models name = none) :
    get_model oa r (.by_name name) = get_default_model oa r := by
  simp [get_model, h]

/-- Witness for the amended C5 at the unregistered name `"ghost"`. -/
theorem get_model_unknown_name_eq_default_witness :
    get_model oaOk r_ok (.by_name "ghost") = get_default_model oaOk r_ok :=
  get_model_unknown_name_eq_default oaOk r_ok "ghost" rfl

/-- Counterexample to C8 as stated: the requirements mapping is given but
empty, and `if requirements:` treats the empty dictionary as falsy, so
`select_model_for_task` returns the cached default instance instead of
constructing a fresh instance from the requirements. -/
theorem select_model_empty_requirements_counterexample :
    select_model_for_task oaOk r_cached "summarize this text" (some [])
      = .ok (cached_inst, r_cached)
    ∧ (create_model_from_config oaOk r_cached []).result = .ok (.tag "openai" [])
    ∧ cached_inst ≠ Inst.tag "openai" [] :=
  ⟨rfl, rfl, by decide⟩

/-- Claim C8, amended: for every task and every non-empty requirements
mapping, `select_model_for_task` constructs a fresh instance from the
requirements via `_create_model_from_config` without caching it (the
router state is returned unchanged); when requirements are absent or
empty it returns the default model; and the task argument never
influences the result. -/
theorem select_model_for_task_fresh_or_default {μ : Type}
    (oa : Config → Except String μ) (r : ModelRouter μ) (task : String)
    (req : Config) :
    (req ≠ [] → select_model_for_task oa r task (some req)
        = (create_model_from_config oa r req).result.map (fun m => (m, r)))
    ∧ select_model_for_task oa r task none = get_default_model oa r
    ∧ select_model_for_task oa r task (some []) = get_default_model oa r
    ∧ (∀ (task2 : String) (reqo : Option Config),
        select_model_for_task oa r task2 reqo
          = select_model_for_task oa r task reqo) := by
  refine ⟨?_, rfl, rfl, ?_⟩
  · intro hne
    cases req with
    | nil => exact absurd rfl hne
    | cons kv rest =>
      cases hc : (create_model_from_config oa r (kv :: rest)).result with
      | ok m => simp [select_model_for_task, hc, Except.map]
      | error e => simp [select_model_for_task, hc, Except.map]
  · intro task2 reqo
    rfl

/-- Witness for the amended C8: a non-empty requirements config yields a
fresh instance built from exactly those keyword arguments, with the
router state unchanged. -/
theorem select_model_for_task_fresh_or_default_witness :
    select_model_for_task oaOk r_ok "t" (some cfg_x)
      = .ok (.tag "openai" cfg_x, r_ok) :=
  ((select_model_for_task_fresh_or_default oaOk r_ok "t" cfg_x).1
    (by decide)).trans rfl

/-- Counterexample to C9 as stated: after the single operation
`register_model_class "Foo" ...` the registry holds the provider key
`"Foo"`, which is not lower-case — `register_model_class` stores its key
verbatim. -/
theorem provider_keys_lowercase_counterexample :
    lower_provider_keys (run_ops oaOk r_ok [.reg_model_class "Foo" ctorFoo])
      = false :=
  rfl

/-- Claim C9, amended: starting from a freshly initialized router (whose
initial keys `"openai"` and `"gemini"` are lower-case), every provider
key in the registry is lower-case after any sequence of router operations
in which each `register_model_class` call passes a lower-case key;
`register_model_class` itself performs no normalization. -/
theorem provider_keys_lowercase_when_registrations_lowercase {μ : Type}
    (oa gm : Config → Except String μ) (cfg : Option Config)
    (ops : List (RouterOp μ)) (hops : ops.all op_keeps_lower = true) :
    lower_provider_keys (run_ops oa (init_router oa gm cfg) ops) = true :=
  run_ops_lower oa (init_router oa gm cfg) ops hops rfl

/-- Witness for the amended C9: registering `"mistral"` and touching the
default model keeps all provider keys lower-case. -/
theorem provider_keys_lowercase_when_registrations_lowercase_witness :
    lower_provider_keys (run_ops oaOk (init_router oaOk gmOk none)
      [.reg_model_class "mistral" ctorMistral, .get_default_op]) = true :=
  provider_keys_lowercase_when_registrations_lowercase oaOk gmOk none
    [.reg_model_class "mistral" ctorMistral, .get_default_op] rfl

end ModelRouting
